import Mathlib

/-!
Verification of the driver-state fusion and alert escalation engine of
`advanced_safety_system.py`. Machine reals (Python floats) are modelled as
exact rationals; the thresholds in play (0.25, 1.7, 45, 500, 6 s) and all
inputs used in witnesses are exactly representable, and no comparison in the
claims is decided within float rounding error of a threshold. Wall-clock
`time.time()` is modelled as a natural number of seconds; it is always
positive on a real system, so Python's truthiness test on `beep_start_time`
is modelled as an `Option` none-check.
-/

namespace AdvancedSafety

/-! ### Eye-closure debouncer (lines 434-441 of the main loop)

`COUNTER` increments on each processed face with `ear < EYE_AR_THRESH`
(0.25) and resets to 0 otherwise; the drowsy flag fires when the counter
reaches `EYE_AR_CONSEC_FRAMES` (20). -/

/-- One update of the eye-closure counter for a single face with eye aspect
ratio `e`: returns the new counter and the drowsy flag raised this step. -/
def earStep (c : ℕ) (e : ℚ) : ℕ × Bool :=
  if e < 1/4 then (c + 1, decide (20 ≤ c + 1)) else (0, false)

/-- Run `earStep` over a sequence of per-frame eye aspect ratios (one face per
frame), collecting the final counter and the per-frame drowsy flags. -/
def earRun (c : ℕ) : List ℚ → ℕ × List Bool
  | [] => (c, [])
  | e :: es =>
    ((earRun (earStep c e).1 es).1, (earStep c e).2 :: (earRun (earStep c e).1 es).2)

/-! ### MAR smoothing, calibration and yawn detection (lines 416-431) -/

/-- Rolling window of raw mouth aspect ratios: `lip_hist.append(mar)` then
`pop(0)` when the window exceeds `MAR_SMOOTH_WIN` (10). -/
def pushWindow (hist : List ℚ) (mar : ℚ) : List ℚ :=
  let h := hist ++ [mar]
  if 10 < h.length then h.tail else h

/-- `smooth_mar`: the mean of the updated rolling window. -/
def smoothedMar (hist : List ℚ) (mar : ℚ) : ℚ :=
  (pushWindow hist mar).sum / ((pushWindow hist mar).length : ℚ)

/-- Mouth-ratio state: the rolling window `lip_hist`, the calibration
baseline `calib_base` (None until the first sample) and the number of
calibration samples taken `calib_count`. -/
structure MarState where
  lip_hist : List ℚ
  calib_base : Option ℚ
  calib_count : ℕ
  deriving Repr, DecidableEq

/-- One per-face update of the mouth-ratio pipeline with raw reading `mar`
(lines 416-431): append to the window, smooth, then either take a
calibration sample (first `CALIB_FRAMES` = 30 samples, EMA with factor 1/2,
yawn suppressed) or compare the smoothed value against
`calib_base * MAR_MULTIPLIER` (1.7). `calib_base` is necessarily set once
`calib_count > 0`, so the `getD 0` default is never consulted after
calibration. Returns the new state and the yawn flag. -/
def marStep (st : MarState) (mar : ℚ) : MarState × Bool :=
  let hist := pushWindow st.lip_hist mar
  let smooth := smoothedMar st.lip_hist mar
  if st.calib_count < 30 then
    ({ lip_hist := hist
       calib_base := some (match st.calib_base with
         | none => smooth
         | some b => (b + smooth) / 2)
       calib_count := st.calib_count + 1 }, false)
  else
    ({ st with lip_hist := hist }, decide (st.calib_base.getD 0 * (17/10) < smooth))

/-! ### Helper lemmas for the debouncers -/

lemma earRun_low (ears : List ℚ) :
    ∀ c : ℕ, (∀ e ∈ ears, e < 1/4) →
      (earRun c ears).1 = c + ears.length ∧
      (earRun c ears).2 =
        (List.range ears.length).map (fun i => decide (20 ≤ c + i + 1)) := by
  induction ears with
  | nil => intro c _; simp [earRun]
  | cons e es ih =>
    intro c h
    have he : e < 1/4 := h e (by simp)
    have hes : ∀ x ∈ es, x < 1/4 := fun x hx => h x (by simp [hx])
    have step : earStep c e = (c + 1, decide (20 ≤ c + 1)) := by
      unfold earStep; rw [if_pos he]
    obtain ⟨ih1, ih2⟩ := ih (c + 1) hes
    constructor
    · simp only [earRun, step, ih1, List.length_cons]; omega
    · simp only [earRun, step, ih2, List.length_cons, List.range_succ_eq_map,
        List.map_cons, List.map_map]
      congr 1
      apply List.map_congr_left
      intro i _
      simp only [Function.comp_apply]
      rw [decide_eq_decide]; omega

lemma pushWindow_length (hist : List ℚ) (mar : ℚ) (h : hist.length ≤ 10) :
    (pushWindow hist mar).length = min (hist.length + 1) 10 := by
  simp only [pushWindow]
  split
  · next hlen =>
    rw [List.length_tail]
    simp only [List.length_append, List.length_cons, List.length_nil] at hlen ⊢
    omega
  · next hlen =>
    simp only [List.length_append, List.length_cons, List.length_nil] at hlen ⊢
    omega

lemma marStep_hist_length (st : MarState) (mar : ℚ) (h : st.lip_hist.length ≤ 10) :
    ((marStep st mar).1).lip_hist.length = min (st.lip_hist.length + 1) 10 := by
  simp only [marStep]
  split <;> simp [pushWindow_length st.lip_hist mar h]

lemma marStep_calib_count (st : MarState) (mar : ℚ) (h : st.calib_count ≤ 30) :
    ((marStep st mar).1).calib_count = min (st.calib_count + 1) 30 := by
  simp only [marStep]
  split
  · next hc => simp; omega
  · next hc => simp; omega

/-! ### Claim theorems for the debouncers -/

/-- C2: starting from a zero counter, over any run of consecutive frames all
with `eyeAspectRatio < 0.25` the counter advances by one per frame and the
drowsy flag on the i-th frame (1-indexed) is raised exactly when `i ≥ 20` —
so the trigger first becomes true on exactly the 20th low-EAR frame; and any
single frame with `eyeAspectRatio ≥ 0.25` resets the counter to zero with no
flag, restarting the 20-frame requirement. -/
theorem drowsiness_debounce :
    (∀ ears : List ℚ, (∀ e ∈ ears, e < 1/4) →
      (earRun 0 ears).1 = ears.length ∧
      (earRun 0 ears).2 =
        (List.range ears.length).map (fun i => decide (20 ≤ i + 1))) ∧
    (∀ (c : ℕ) (e : ℚ), ¬ e < 1/4 → earStep c e = (0, false)) := by
  constructor
  · intro ears h
    obtain ⟨h1, h2⟩ := earRun_low ears 0 h
    refine ⟨by simpa using h1, ?_⟩
    rw [h2]
    apply List.map_congr_left
    intro i _
    rw [decide_eq_decide]; omega
  · intro c e h
    unfold earStep; rw [if_neg h]

/-- Witness for C2 at concrete inputs: twenty-five consecutive frames with
EAR = 1/5 < 0.25 give flags false on frames 1-19 and true from frame 20 on,
and a frame with EAR = 1/2 ≥ 0.25 resets counter 7 to zero. -/
theorem drowsiness_debounce_witness :
    ((earRun 0 (List.replicate 25 (1/5))).1 = 25 ∧
      (earRun 0 (List.replicate 25 (1/5))).2 =
        (List.range 25).map (fun i => decide (20 ≤ i + 1))) ∧
    earStep 7 (1/2) = (0, false) := by
  refine ⟨?_, ?_⟩
  · have h := drowsiness_debounce.1 (List.replicate 25 (1/5)) (by
      intro e he
      rw [List.eq_of_mem_replicate he]
      norm_num)
    simpa using h
  · exact drowsiness_debounce.2 7 (1/2) (by norm_num)

/-- C6: yawn detection never fires while fewer than `CALIB_FRAMES` (30)
calibration samples have been taken, regardless of the raw mouth ratio; once
30 samples are in, it fires exactly when the smoothed mouth ratio (mean of
the last up-to-10 raw readings, oldest evicted) exceeds
`baselineMouthRatio * 1.7`; with baseline 0.2 a smoothed ratio of 0.35
triggers and 0.33 does not. -/
theorem yawn_calibration_gate :
    (∀ (st : MarState) (mar : ℚ), st.calib_count < 30 → (marStep st mar).2 = false) ∧
    (∀ (st : MarState) (mar b : ℚ), 30 ≤ st.calib_count → st.calib_base = some b →
      ((marStep st mar).2 = true ↔ b * (17/10) < smoothedMar st.lip_hist mar)) ∧
    (marStep ⟨[], some (1/5), 30⟩ (7/20)).2 = true ∧
    (marStep ⟨[], some (1/5), 30⟩ (33/100)).2 = false ∧
    smoothedMar [] (7/20) = 7/20 := by
  refine ⟨?_, ?_, ?_, ?_, by norm_num [smoothedMar, pushWindow]⟩
  · intro st mar h
    simp [marStep, h]
  · intro st mar b h hb
    have hnot : ¬ st.calib_count < 30 := by omega
    simp [marStep, hnot, hb]
  · norm_num [marStep, smoothedMar, pushWindow]
  · norm_num [marStep, smoothedMar, pushWindow]

/-- Witness for C6 at concrete inputs: a huge raw ratio (100) during
calibration (sample count 0) does not fire, and after calibration with
baseline 1/5 the iff instance holds for a raw reading of 7/20 on an empty
window (smoothed value 7/20 > 0.34). -/
theorem yawn_calibration_gate_witness :
    (marStep ⟨[], none, 0⟩ 100).2 = false ∧
    ((marStep ⟨[], some (1/5), 30⟩ (7/20)).2 = true ↔
      (1/5 : ℚ) * (17/10) < smoothedMar [] (7/20)) := by
  refine ⟨?_, ?_⟩
  · exact yawn_calibration_gate.1 ⟨[], none, 0⟩ 100 (by norm_num)
  · exact yawn_calibration_gate.2.1 ⟨[], some (1/5), 30⟩ (7/20) (1/5) (by norm_num) rfl

/-! ### Speech verification (`verify_speech`, lines 165-193)

Python's `str.lower()` and argument-less `str.split()` are modelled
structurally over the character list: every character is lowercased
(ASCII A-Z, the only letters the fixed vocabulary and Google transcripts of
it contain), then the list is split on runs of whitespace, dropping empty
pieces — exactly `str.split()`'s behaviour. -/

/-- Split a character list into maximal whitespace-free words; `cur` holds
the (reversed) characters of the word being read. Models `str.split()`. -/
def wordsAux (cur : List Char) : List Char → List String
  | [] => if cur.isEmpty then [] else [String.mk cur.reverse]
  | c :: cs =>
    if c.isWhitespace then
      if cur.isEmpty then wordsAux [] cs
      else String.mk cur.reverse :: wordsAux [] cs
    else wordsAux (c :: cur) cs

/-- `text.lower().split()` as a set of words (Python `set(...)`). -/
def lowerWordSet (s : String) : Finset String :=
  (wordsAux [] (s.toList.map Char.toLower)).toFinset

/-- `match_ratio = len(words_expected & words_spoken) / len(words_expected)`.
(ℚ division by zero is 0, matching the Python code's behaviour where a
ZeroDivisionError on an empty prompt is caught and yields a failed test.) -/
def matchRatio (expected spoken : String) : ℚ :=
  ((lowerWordSet expected ∩ lowerWordSet spoken).card : ℚ) /
    ((lowerWordSet expected).card : ℚ)

/-- Outcome of the capture-and-transcribe step: a transcript, or one of the
failure modes the code catches (`sr.WaitTimeoutError`, `sr.UnknownValueError`,
any other exception). -/
inductive CaptureResult where
  | heard (text : String)
  | timedOut
  | unintelligible
  | error
  deriving Repr, DecidableEq

/-- `verify_speech`: on a transcript, pass iff the word-overlap ratio is at
least 0.75; every capture failure returns `false`. -/
def verify_speech (expected : String) (cap : CaptureResult) : Bool :=
  match cap with
  | CaptureResult.heard spoken => decide (3/4 ≤ matchRatio expected spoken)
  | _ => false

def samplePrompt : String := "apple banana computer elephant"

def sampleHeardTwo : String := "apple banana"

lemma samplePrompt_card : (lowerWordSet samplePrompt).card = 4 := by decide

lemma samplePrompt_inter_self :
    (lowerWordSet samplePrompt ∩ lowerWordSet samplePrompt).card = 4 := by decide

lemma samplePrompt_inter_two :
    (lowerWordSet samplePrompt ∩ lowerWordSet sampleHeardTwo).card = 2 := by decide

/-- C7: speech verification passes iff the word-overlap ratio
`|prompt_words ∩ heard_words| / |prompt_words|` is at least 0.75, and every
failure of the capture/transcription step (timeout, unintelligible audio, or
any other capture error) returns a failed attempt rather than a retry; for
the 4-word prompt "apple banana computer elephant", hearing all four words
passes (ratio 1) and hearing only "apple banana" fails (ratio 1/2). -/
theorem speech_overlap_rule :
    (∀ (expected spoken : String),
      verify_speech expected (CaptureResult.heard spoken) = true ↔
        3/4 ≤ matchRatio expected spoken) ∧
    (∀ expected : String,
      verify_speech expected CaptureResult.timedOut = false ∧
      verify_speech expected CaptureResult.unintelligible = false ∧
      verify_speech expected CaptureResult.error = false) ∧
    matchRatio samplePrompt samplePrompt = 1 ∧
    verify_speech samplePrompt (CaptureResult.heard samplePrompt) = true ∧
    matchRatio samplePrompt sampleHeardTwo = 1/2 ∧
    verify_speech samplePrompt (CaptureResult.heard sampleHeardTwo) = false := by
  have hr1 : matchRatio samplePrompt samplePrompt = 1 := by
    simp only [matchRatio, samplePrompt_card, samplePrompt_inter_self]
    norm_num
  have hr2 : matchRatio samplePrompt sampleHeardTwo = 1/2 := by
    simp only [matchRatio, samplePrompt_card, samplePrompt_inter_two]
    norm_num
  refine ⟨?_, ?_, hr1, ?_, hr2, ?_⟩
  · intro expected spoken
    simp [verify_speech]
  · intro expected
    exact ⟨rfl, rfl, rfl⟩
  · simp only [verify_speech, hr1]
    norm_num
  · simp only [verify_speech, hr2]
    norm_num

/-- Witness for C7's universally quantified parts at concrete inputs: the
iff instance at the sample prompt and transcript, and the failure cases at
the sample prompt. -/
theorem speech_overlap_rule_witness :
    (verify_speech samplePrompt (CaptureResult.heard sampleHeardTwo) = true ↔
      3/4 ≤ matchRatio samplePrompt sampleHeardTwo) ∧
    verify_speech samplePrompt CaptureResult.timedOut = false ∧
    verify_speech samplePrompt CaptureResult.unintelligible = false ∧
    verify_speech samplePrompt CaptureResult.error = false :=
  ⟨speech_overlap_rule.1 samplePrompt sampleHeardTwo,
    speech_overlap_rule.2.1 samplePrompt⟩

/-- C9: matching is insensitive to case, word order and repetition — both
sides are lowercased and compared as word sets, so whenever the lowercased
word set of the prompt is nonempty and contained in that of the transcript
(regardless of order, letter case, or extra words), the ratio is 1 and the
test passes; and enlarging the transcript's word set never lowers the
ratio. -/
theorem speech_case_order_insensitive :
    (∀ p t : String, lowerWordSet p ≠ ∅ → lowerWordSet p ⊆ lowerWordSet t →
      matchRatio p t = 1 ∧ verify_speech p (CaptureResult.heard t) = true) ∧
    (∀ p t t' : String, lowerWordSet t ⊆ lowerWordSet t' →
      matchRatio p t ≤ matchRatio p t') := by
  constructor
  · intro p t hne hsub
    have hinter : lowerWordSet p ∩ lowerWordSet t = lowerWordSet p :=
      Finset.inter_eq_left.mpr hsub
    have hcard : ((lowerWordSet p).card : ℚ) ≠ 0 := by
      have : (lowerWordSet p).card ≠ 0 := by
        simpa [Finset.card_eq_zero] using hne
      exact_mod_cast this
    have hratio : matchRatio p t = 1 := by
      simp only [matchRatio, hinter]
      exact div_self hcard
    refine ⟨hratio, ?_⟩
    simp only [verify_speech, hratio]
    norm_num
  · intro p t t' hsub
    have hinter : (lowerWordSet p ∩ lowerWordSet t).card ≤
        (lowerWordSet p ∩ lowerWordSet t').card :=
      Finset.card_le_card (Finset.inter_subset_inter (Finset.Subset.refl _) hsub)
    by_cases hz : ((lowerWordSet p).card : ℚ) = 0
    · simp [matchRatio, hz]
    · have hpos : (0 : ℚ) < ((lowerWordSet p).card : ℚ) := by
        have : 0 < (lowerWordSet p).card := by
          rcases Nat.eq_zero_or_pos (lowerWordSet p).card with h | h
          · exact absurd (by exact_mod_cast h) hz
          · exact h
        exact_mod_cast this
      simp only [matchRatio]
      exact (div_le_div_iff_of_pos_right hpos).mpr (by exact_mod_cast hinter)

def mixedCasePrompt : String := "Apple BANANA"

def mixedCaseTranscript : String := "yes banana indeed APPLE apple"

/-- Witness for C9 at concrete inputs: a mixed-case prompt whose words all
occur (in different case and order, with repetition and extra words) in the
transcript passes with ratio 1, and growing a transcript's word set does not
lower the ratio. -/
theorem speech_case_order_insensitive_witness :
    (matchRatio mixedCasePrompt mixedCaseTranscript = 1 ∧
      verify_speech mixedCasePrompt (CaptureResult.heard mixedCaseTranscript) = true) ∧
    matchRatio samplePrompt sampleHeardTwo ≤ matchRatio samplePrompt samplePrompt :=
  ⟨speech_case_order_insensitive.1 mixedCasePrompt mixedCaseTranscript
      (by decide) (by decide),
    speech_case_order_insensitive.2 samplePrompt sampleHeardTwo samplePrompt
      (by decide)⟩

/-! ### GPS parsing (`parse_gps_data`, lines 220-255)

NMEA sentences are processed as character lists. `str.split(',')` keeps
empty pieces; Python slicing `raw[:2]` / `raw[2:]` is `List.take`/`drop`;
`float(...)` is modelled on the unsigned decimal literals GGA fields
consist of, returning `none` exactly where Python raises `ValueError`
(which the code's `except` turns into "keep the old coordinates"). -/

/-- Last-known-good GPS coordinates (`last_gps_coords`). -/
structure GpsFix where
  lat : Option ℚ
  lon : Option ℚ
  deriving Repr, DecidableEq

/-- Does the character list start with the given tag? -/
def startsWithChars : List Char → List Char → Bool
  | _, [] => true
  | [], _ :: _ => false
  | c :: cs, t :: ts => c = t && startsWithChars cs ts

/-- `str.split(sep)` for a one-character separator: keeps empty pieces. -/
def splitOnChar (sep : Char) : List Char → List (List Char)
  | [] => [[]]
  | c :: cs =>
    if c = sep then [] :: splitOnChar sep cs
    else
      match splitOnChar sep cs with
      | [] => [[c]]
      | w :: ws => (c :: w) :: ws

/-- Value of a digit string read left to right. -/
def natOfDigits (l : List Char) : ℕ :=
  l.foldl (fun a c => a * 10 + (c.toNat - 48)) 0

/-- Python `float(s)` on the unsigned decimal literals appearing in GGA
fields: digits with at most one decimal point and at least one digit;
`none` where Python raises. -/
def parseDecimal (cs : List Char) : Option ℚ :=
  match splitOnChar '.' cs with
  | [ip] =>
    if ip ≠ [] ∧ ip.all Char.isDigit then some (natOfDigits ip : ℚ) else none
  | [ip, fp] =>
    if (ip ≠ [] ∨ fp ≠ []) ∧ ip.all Char.isDigit ∧ fp.all Char.isDigit then
      some ((natOfDigits ip : ℚ) + (natOfDigits fp : ℚ) / (10 : ℚ) ^ fp.length)
    else none
  | _ => none

def gpggaTag : List Char := ['$', 'G', 'P', 'G', 'G', 'A']

def gnggaTag : List Char := ['$', 'G', 'N', 'G', 'G', 'A']

/-- Outcome of one NMEA line inside the read loop: not a usable GGA
candidate (loop continues), a float-conversion error (the exception path:
the whole call returns with coordinates untouched), or a fully parsed
fix. -/
inductive LineOutcome where
  | skip
  | abort
  | fix (lat lon : ℚ)
  deriving Repr, DecidableEq

/-- One line of the GGA parser (lines 231-251): tag check, field-count and
nonemptiness guards, then degree/minute float conversions with hemisphere
signs. -/
def processLine (line : String) : LineOutcome :=
  let cs := line.toList
  if startsWithChars cs gpggaTag || startsWithChars cs gnggaTag then
    let parts := splitOnChar ',' cs
    if 6 < parts.length ∧ parts.getD 2 [] ≠ [] ∧ parts.getD 4 [] ≠ [] then
      match parseDecimal ((parts.getD 2 []).take 2),
          parseDecimal ((parts.getD 2 []).drop 2),
          parseDecimal ((parts.getD 4 []).take 3),
          parseDecimal ((parts.getD 4 []).drop 3) with
      | some latDeg, some latMin, some lonDeg, some lonMin =>
        LineOutcome.fix
          (if parts.getD 3 [] = ['S'] then -(latDeg + latMin / 60)
           else latDeg + latMin / 60)
          (if parts.getD 5 [] = ['W'] then -(lonDeg + lonMin / 60)
           else lonDeg + lonMin / 60)
      | _, _, _, _ => LineOutcome.abort
    else LineOutcome.skip
  else LineOutcome.skip

/-- `parse_gps_data`: scan up to the buffered lines; the first fully parsed
GGA sentence replaces the stored coordinates; a conversion error aborts the
scan; otherwise the loop runs out and the stored coordinates are returned.
An empty line list also covers the no-GPS-device case. -/
def parse_gps_data (st : GpsFix) : List String → GpsFix
  | [] => st
  | l :: ls =>
    match processLine l with
    | LineOutcome.skip => parse_gps_data st ls
    | LineOutcome.abort => st
    | LineOutcome.fix lat lon => ⟨some lat, some lon⟩

def goodGpsLine : String := "$GPGGA,123519,4000.0000,N,07300.0000,W,1,08,0.9,545.4,M,46.9,M,,"

def malformedGpsLine : String := "$GPGGA,123519,ABCD.5,N,07300.0000,W,1,08"

def otherNmeaLine : String := "$GPRMC,123519,A,4807.038,N"

lemma processLine_malformed : processLine malformedGpsLine = LineOutcome.abort := by
  decide

lemma parse_gps_abort (st : GpsFix) :
    parse_gps_data st [malformedGpsLine] = st := by
  simp [parse_gps_data, processLine_malformed]

lemma processLine_good : processLine goodGpsLine = LineOutcome.fix 40 (-73) := by
  with_unfolding_all rfl

/-- C8: the GPS fix is last-known-good — (i) any scan in which no line
yields a fully parsed valid GGA sentence (malformed lines, empty fields,
conversion errors, or no data at all) leaves the stored coordinates exactly
as they were; (ii) the fix is never reset to `none` after once holding a
value; (iii) concretely, a malformed sentence arriving after a valid fix of
(lat = 40, lon = -73) leaves that fix unchanged, where that fix is indeed
what a valid GGA sentence for 40° N, 73° W produces. -/
theorem gps_last_known_good :
    (∀ (st : GpsFix) (lines : List String),
      (∀ l ∈ lines,
        processLine l = LineOutcome.skip ∨ processLine l = LineOutcome.abort) →
      parse_gps_data st lines = st) ∧
    (∀ (st : GpsFix) (lines : List String),
      ((parse_gps_data st lines).lat = none → st.lat = none) ∧
      ((parse_gps_data st lines).lon = none → st.lon = none)) ∧
    parse_gps_data ⟨none, none⟩ [goodGpsLine] = ⟨some 40, some (-73)⟩ ∧
    parse_gps_data ⟨some 40, some (-73)⟩ [malformedGpsLine] =
      ⟨some 40, some (-73)⟩ := by
  refine ⟨?_, ?_, ?_, parse_gps_abort _⟩
  · intro st lines h
    induction lines with
    | nil => rfl
    | cons l ls ih =>
      have hl := h l (by simp)
      have hls : ∀ l' ∈ ls,
          processLine l' = LineOutcome.skip ∨ processLine l' = LineOutcome.abort :=
        fun l' hmem => h l' (by simp [hmem])
      simp only [parse_gps_data]
      cases hout : processLine l with
      | skip => exact ih hls
      | abort => rfl
      | fix la lo => rw [hout] at hl; rcases hl with hl | hl <;> exact absurd hl (by simp)
  · intro st lines
    induction lines with
    | nil => exact ⟨fun h => h, fun h => h⟩
    | cons l ls ih =>
      simp only [parse_gps_data]
      cases hout : processLine l with
      | skip => exact ih
      | abort => exact ⟨fun h => h, fun h => h⟩
      | fix la lo => exact ⟨fun h => by simp at h, fun h => by simp at h⟩
  · simp only [parse_gps_data, processLine_good]

/-- Witness for C8 at concrete inputs: a scan consisting of a non-GGA line
and a malformed GGA line leaves a held fix unchanged, and the
never-reset-to-none direction instantiated on that scan. -/
theorem gps_last_known_good_witness :
    parse_gps_data ⟨some 40, some (-73)⟩ [otherNmeaLine, malformedGpsLine] =
      ⟨some 40, some (-73)⟩ ∧
    ((parse_gps_data ⟨some 40, some (-73)⟩ [malformedGpsLine]).lat = none →
      (⟨some 40, some (-73)⟩ : GpsFix).lat = none) := by
  constructor
  · exact gps_last_known_good.1 ⟨some 40, some (-73)⟩ _ (by decide)
  · exact (gps_last_known_good.2.1 ⟨some 40, some (-73)⟩ [malformedGpsLine]).1

/-! ### The main loop (lines 352-566)

One loop iteration ("tick") is split into the phases of the source, in
order: sensor checks (GPS, tilt/accident, alcohol), face detection and
per-face analysis, the drowsiness/yawn alert logic, and keyboard handling.
Hardware, audio and SMTP side effects are modelled by the booleans the code
itself keeps (`buzzer_active`, `alert_active`) and by the list of
emergency-email dispatches a tick emits. -/

/-- Per-frame face metrics the landmark extractor produces for one face. -/
structure Face where
  ear : ℚ
  mar : ℚ
  deriving Repr, DecidableEq

/-- Keyboard events of one tick; `s` carries the result of the blocking
speech capture that the key triggers. -/
inductive KeyEvent where
  | noKey
  | keyS (cap : CaptureResult)
  | keyA
  | keyR
  | keyQ
  deriving Repr, DecidableEq

/-- Incident type of an emergency email dispatch. -/
inductive Incident where
  | accident
  | drowsiness
  | alcohol
  deriving Repr, DecidableEq

/-- The mutable state of the main loop. -/
structure SysState where
  alert_active : Bool
  beep_start_time : Option ℕ
  buzzer_active : Bool
  accident_detected : Bool
  alcohol_test_active : Bool
  alcohol_test_failed : Bool
  test_text : String
  drowsiness_email_sent : Bool
  counter : ℕ
  marSt : MarState
  gps : GpsFix
  deriving Repr

/-- The external inputs consumed by one tick: current time (seconds),
buffered GPS lines, the tilt angle (or `none` when the accelerometer is
unavailable or errors, making `check_tilt_angle` return not-tilted), the
boolean result of `check_alcohol_level`, the random prompt that would be
generated if a sobriety test starts, the detected faces, and the key
event. -/
structure TickInput where
  now : ℕ
  gpsLines : List String
  tilt : Option ℚ
  alcoholHigh : Bool
  prompt : String
  faces : List Face
  key : KeyEvent
  deriving Repr

/-- Initial state of the loop (module-level initialisation). -/
def initState : SysState where
  alert_active := false
  beep_start_time := none
  buzzer_active := false
  accident_detected := false
  alcohol_test_active := false
  alcohol_test_failed := false
  test_text := ""
  drowsiness_email_sent := false
  counter := 0
  marSt := ⟨[], none, 0⟩
  gps := ⟨none, none⟩

/-- Sensor phase (lines 366-386): GPS update, tilt/accident latch (angle
strictly above `TILT_THRESHOLD` = 45 and not already latched activates the
buzzer and sends one accident email), then the alcohol check that starts a
sobriety test when none is active. -/
def sensorPhase (s : SysState) (inp : TickInput) : SysState × List Incident :=
  let s0 := { s with gps := parse_gps_data s.gps inp.gpsLines }
  let isTilted := match inp.tilt with
    | some a => decide (45 < a)
    | none => false
  let p1 :=
    if isTilted && !s0.accident_detected then
      ({ s0 with accident_detected := true, buzzer_active := true },
        [Incident.accident])
    else (s0, [])
  let s2 :=
    if !p1.1.alcohol_test_active && inp.alcoholHigh then
      { p1.1 with alcohol_test_active := true, test_text := inp.prompt }
    else p1.1
  (s2, p1.2)

/-- Per-face analysis accumulator: the eye counter, the mouth-ratio state
and the frame's `trigger_alert` flag (only ever set, never cleared, within
a frame). -/
structure FaceAcc where
  counter : ℕ
  marSt : MarState
  trigger : Bool
  deriving Repr

/-- Processing of one detected face (lines 408-441): MAR smoothing /
calibration / yawn check, then the eye-closure counter. -/
def faceStep (a : FaceAcc) (f : Face) : FaceAcc :=
  let m := marStep a.marSt f.mar
  let e := earStep a.counter f.ear
  { counter := e.1, marSt := m.1, trigger := a.trigger || m.2 || e.2 }

/-- Face phase (lines 391-441): with no face detected the counter resets
and, unless an accident is latched or a sobriety test is active, the beep
timer, tone and buzzer are all cleared; otherwise every detected face is
processed in turn. Returns the updated state and `trigger_alert`. -/
def facePhase (s : SysState) (faces : List Face) : SysState × Bool :=
  match faces with
  | [] =>
    let s0 := { s with counter := 0 }
    let s1 :=
      if !s0.accident_detected && !s0.alcohol_test_active then
        { s0 with beep_start_time := none, alert_active := false,
                  buzzer_active := false }
      else s0
    (s1, false)
  | _ :: _ =>
    let a := faces.foldl faceStep ⟨s.counter, s.marSt, false⟩
    ({ s with counter := a.counter, marSt := a.marSt }, a.trigger)

/-- Alert phase (lines 446-471). On a triggering tick: start an episode
(tone, `beep_start_time := now`, reset the per-episode email flag) or,
`BEEP_DURATION` = 6 seconds into the episode, activate the buzzer and send
at most one drowsiness email. On a non-triggering tick: clear tone, buzzer
and beep timer — each only when no accident is latched. -/
def alertPhase (s : SysState) (trigger : Bool) (now : ℕ) : SysState × List Incident :=
  if trigger then
    if !s.alert_active then
      ({ s with alert_active := true, beep_start_time := some now,
                drowsiness_email_sent := false }, [])
    else
      match s.beep_start_time with
      | some t0 =>
        if 6 ≤ now - t0 then
          if !s.drowsiness_email_sent then
            ({ s with buzzer_active := true, drowsiness_email_sent := true },
              [Incident.drowsiness])
          else ({ s with buzzer_active := true }, [])
        else (s, [])
      | none => (s, [])
  else
    let s1 := if s.alert_active && !s.accident_detected then
        { s with alert_active := false }
      else s
    let s2 := if s1.buzzer_active && !s1.accident_detected then
        { s1 with buzzer_active := false }
      else s1
    let s3 := if !s2.accident_detected then
        { s2 with beep_start_time := none }
      else s2
    (s3, [])

/-- Keyboard phase (lines 531-566): `s` runs the sobriety verification when
a test is active (pass clears the test; fail latches the failed flag,
activates the buzzer and sends one intoxication email), `a` is a pure
sensor probe, `r` resets the accident latch and failed-test flag and
unconditionally deactivates the buzzer. -/
def keyPhase (s : SysState) (key : KeyEvent) : SysState × List Incident :=
  match key with
  | KeyEvent.keyS cap =>
    if s.alcohol_test_active then
      if verify_speech s.test_text cap then
        ({ s with alcohol_test_active := false, alcohol_test_failed := false }, [])
      else
        ({ s with alcohol_test_failed := true, buzzer_active := true,
                  alcohol_test_active := false }, [Incident.alcohol])
    else (s, [])
  | KeyEvent.keyR =>
    ({ s with accident_detected := false, alcohol_test_failed := false,
              buzzer_active := false }, [])
  | _ => (s, [])

/-- The state right after the face phase of a tick. -/
def afterFace (s : SysState) (inp : TickInput) : SysState :=
  (facePhase (sensorPhase s inp).1 inp.faces).1

/-- `trigger_alert` as computed during a tick from state `s`. -/
def tickTrigger (s : SysState) (inp : TickInput) : Bool :=
  (facePhase (sensorPhase s inp).1 inp.faces).2

/-- The state of a tick right after the alert logic has run (before the
display and keyboard sections). -/
def afterAlert (s : SysState) (inp : TickInput) : SysState :=
  (alertPhase (afterFace s inp) (tickTrigger s inp) inp.now).1

/-- One full loop iteration: resulting state and the emails dispatched. -/
def tick (s : SysState) (inp : TickInput) : SysState × List Incident :=
  let p1 := sensorPhase s inp
  let p2 := facePhase p1.1 inp.faces
  let p3 := alertPhase p2.1 p2.2 inp.now
  let p4 := keyPhase p3.1 inp.key
  (p4.1, p1.2 ++ p3.2 ++ p4.2)

/-- Iterated ticks. -/
def run (s : SysState) : List TickInput → SysState
  | [] => s
  | i :: is => run (tick s i).1 is

/-- All emails dispatched over a run. -/
def runEmails (s : SysState) : List TickInput → List Incident
  | [] => []
  | i :: is => (tick s i).2 ++ runEmails (tick s i).1 is

/-- Does `trigger_alert` hold on every tick of the run? -/
def allTrigger (s : SysState) : List TickInput → Bool
  | [] => true
  | i :: is => tickTrigger s i && allTrigger (tick s i).1 is

/-- Number of emails of a given incident type in a dispatch list. -/
def countIncident (t : Incident) (l : List Incident) : ℕ :=
  (l.filter (fun x => x = t)).length

/-! ### Phase lemmas -/

lemma tick_fst (s : SysState) (i : TickInput) :
    (tick s i).1 = (keyPhase (afterAlert s i) i.key).1 := rfl

lemma tick_snd (s : SysState) (i : TickInput) :
    (tick s i).2 = (sensorPhase s i).2 ++
      (alertPhase (afterFace s i) (tickTrigger s i) i.now).2 ++
      (keyPhase (afterAlert s i) i.key).2 := rfl

lemma countIncident_append (t : Incident) (a b : List Incident) :
    countIncident t (a ++ b) = countIncident t a + countIncident t b := by
  simp [countIncident]

lemma sensorPhase_unchanged (s : SysState) (i : TickInput) :
    (sensorPhase s i).1.alert_active = s.alert_active ∧
    (sensorPhase s i).1.beep_start_time = s.beep_start_time ∧
    (sensorPhase s i).1.drowsiness_email_sent = s.drowsiness_email_sent ∧
    (sensorPhase s i).1.counter = s.counter ∧
    (sensorPhase s i).1.marSt = s.marSt ∧
    (sensorPhase s i).1.alcohol_test_failed = s.alcohol_test_failed := by
  simp only [sensorPhase]
  split_ifs <;> simp

lemma sensorPhase_acc_mono (s : SysState) (i : TickInput)
    (h : s.accident_detected = true) :
    (sensorPhase s i).1.accident_detected = true ∧ (sensorPhase s i).2 = [] := by
  simp only [sensorPhase]
  split_ifs with h1 h2 h2 <;> simp_all

lemma sensorPhase_accident_false (s : SysState) (i : TickInput)
    (h : (sensorPhase s i).1.accident_detected = false) :
    s.accident_detected = false := by
  by_contra hc
  have := (sensorPhase_acc_mono s i (by revert hc; cases s.accident_detected <;> simp)).1
  rw [h] at this
  exact Bool.false_ne_true this

lemma sensorPhase_accbuzz (s : SysState) (i : TickInput)
    (h : s.accident_detected = true → s.buzzer_active = true) :
    (sensorPhase s i).1.accident_detected = true →
    (sensorPhase s i).1.buzzer_active = true := by
  simp only [sensorPhase]
  split_ifs <;> simp_all

lemma sensorPhase_emails (s : SysState) (i : TickInput) :
    countIncident Incident.drowsiness (sensorPhase s i).2 = 0 ∧
    countIncident Incident.alcohol (sensorPhase s i).2 = 0 := by
  simp only [sensorPhase]
  split_ifs <;> simp [countIncident]

lemma facePhase_cons_unchanged (s : SysState) (f : Face) (fs : List Face) :
    (facePhase s (f :: fs)).1.alert_active = s.alert_active ∧
    (facePhase s (f :: fs)).1.beep_start_time = s.beep_start_time ∧
    (facePhase s (f :: fs)).1.buzzer_active = s.buzzer_active ∧
    (facePhase s (f :: fs)).1.accident_detected = s.accident_detected ∧
    (facePhase s (f :: fs)).1.alcohol_test_active = s.alcohol_test_active ∧
    (facePhase s (f :: fs)).1.alcohol_test_failed = s.alcohol_test_failed ∧
    (facePhase s (f :: fs)).1.test_text = s.test_text ∧
    (facePhase s (f :: fs)).1.drowsiness_email_sent = s.drowsiness_email_sent :=
  ⟨rfl, rfl, rfl, rfl, rfl, rfl, rfl, rfl⟩

lemma facePhase_accident (s : SysState) (fs : List Face) :
    (facePhase s fs).1.accident_detected = s.accident_detected := by
  cases fs with
  | nil => simp only [facePhase]; split_ifs <;> rfl
  | cons f fs => rfl

lemma facePhase_accbuzz (s : SysState) (fs : List Face)
    (h : s.accident_detected = true → s.buzzer_active = true) :
    (facePhase s fs).1.accident_detected = true →
    (facePhase s fs).1.buzzer_active = true := by
  cases fs with
  | nil =>
    simp only [facePhase]
    split_ifs with hc <;> simp_all
  | cons f fs => exact h

lemma facePhase_nil_trigger (s : SysState) : (facePhase s []).2 = false := by
  simp only [facePhase]

lemma tickTrigger_faces_ne (s : SysState) (i : TickInput)
    (h : tickTrigger s i = true) : i.faces ≠ [] := by
  intro hnil
  rw [tickTrigger, hnil, facePhase_nil_trigger] at h
  exact Bool.false_ne_true h

lemma alertPhase_accident (s : SysState) (tr : Bool) (n : ℕ) :
    (alertPhase s tr n).1.accident_detected = s.accident_detected := by
  simp only [alertPhase]
  split_ifs <;> try rfl
  all_goals (cases s.beep_start_time <;> simp <;> split_ifs <;> rfl)

lemma alertPhase_trigger_keep (s : SysState) (n : ℕ)
    (ha : s.alert_active = true) (he : s.drowsiness_email_sent = true) :
    (alertPhase s true n).1.alert_active = true ∧
    (alertPhase s true n).1.drowsiness_email_sent = true ∧
    (alertPhase s true n).2 = [] := by
  simp only [alertPhase, ha, he]
  cases s.beep_start_time <;> simp [ha, he] <;> split_ifs <;> simp [ha, he]

lemma alertPhase_false_noacc (s : SysState) (n : ℕ)
    (h : s.accident_detected = false) :
    (alertPhase s false n).1.alert_active = false ∧
    (alertPhase s false n).1.beep_start_time = none ∧
    (alertPhase s false n).1.buzzer_active = false := by
  simp only [alertPhase]
  split_ifs <;> simp_all

lemma alertPhase_false_acc (s : SysState) (n : ℕ)
    (h : s.accident_detected = true) :
    (alertPhase s false n).1 = s := by
  simp [alertPhase, h]

lemma alertPhase_accbuzz (s : SysState) (tr : Bool) (n : ℕ)
    (h : s.accident_detected = true → s.buzzer_active = true) :
    (alertPhase s tr n).1.accident_detected = true →
    (alertPhase s tr n).1.buzzer_active = true := by
  intro hacc
  rw [alertPhase_accident] at hacc
  have hb := h hacc
  cases tr with
  | false =>
    rw [alertPhase_false_acc s n hacc]
    exact hb
  | true =>
    simp only [alertPhase]
    split_ifs <;> try exact hb
    all_goals
      cases s.beep_start_time with
      | none => exact hb
      | some t0 =>
        by_cases hle : 6 ≤ n - t0
        · simp only [if_pos hle]
        · simp only [if_neg hle]; exact hb

lemma alertPhase_noemail_acc (s : SysState) (tr : Bool) (n : ℕ) :
    countIncident Incident.accident (alertPhase s tr n).2 = 0 ∧
    countIncident Incident.alcohol (alertPhase s tr n).2 = 0 := by
  simp only [alertPhase]
  split_ifs <;> try simp [countIncident]
  all_goals (cases s.beep_start_time <;> simp [countIncident] <;>
    split_ifs <;> simp [countIncident])

lemma keyPhase_unchanged (s : SysState) (k : KeyEvent) :
    (keyPhase s k).1.alert_active = s.alert_active ∧
    (keyPhase s k).1.beep_start_time = s.beep_start_time ∧
    (keyPhase s k).1.drowsiness_email_sent = s.drowsiness_email_sent ∧
    (keyPhase s k).1.counter = s.counter ∧
    (keyPhase s k).1.marSt = s.marSt := by
  cases k <;> simp only [keyPhase] <;> (try split_ifs) <;> simp

lemma keyPhase_accident (s : SysState) (k : KeyEvent) (h : k ≠ KeyEvent.keyR) :
    (keyPhase s k).1.accident_detected = s.accident_detected := by
  cases k <;> simp only [keyPhase] <;> try rfl
  · split_ifs <;> rfl
  · exact absurd rfl h

lemma keyPhase_accbuzz (s : SysState) (k : KeyEvent)
    (h : s.accident_detected = true → s.buzzer_active = true) :
    (keyPhase s k).1.accident_detected = true →
    (keyPhase s k).1.buzzer_active = true := by
  cases k <;> simp only [keyPhase] <;> try exact h
  · split_ifs <;> simp_all
  · simp

lemma keyPhase_emails (s : SysState) (k : KeyEvent) :
    countIncident Incident.drowsiness (keyPhase s k).2 = 0 ∧
    countIncident Incident.accident (keyPhase s k).2 = 0 := by
  cases k <;> simp only [keyPhase] <;> try simp [countIncident]
  split_ifs <;> simp [countIncident]

/-! ### Fold lemmas for per-face processing -/

lemma faceStep_counter_low (a : FaceAcc) (f : Face) (h : f.ear < 1/4) :
    (faceStep a f).counter = a.counter + 1 := by
  simp only [faceStep, earStep, if_pos h]

lemma foldl_faceStep_counter (faces : List Face) :
    ∀ a : FaceAcc, (∀ f ∈ faces, f.ear < 1/4) →
      (faces.foldl faceStep a).counter = a.counter + faces.length := by
  induction faces with
  | nil => intro a _; simp
  | cons f fs ih =>
    intro a h
    have hf : f.ear < 1/4 := h f (by simp)
    have hfs : ∀ g ∈ fs, g.ear < 1/4 := fun g hg => h g (by simp [hg])
    simp only [List.foldl_cons, List.length_cons, ih _ hfs,
      faceStep_counter_low a f hf]
    omega

lemma foldl_faceStep_hist (faces : List Face) :
    ∀ a : FaceAcc, a.marSt.lip_hist.length ≤ 10 →
      (faces.foldl faceStep a).marSt.lip_hist.length =
        min (a.marSt.lip_hist.length + faces.length) 10 := by
  induction faces with
  | nil => intro a h; simp; omega
  | cons f fs ih =>
    intro a h
    have hs : (faceStep a f).marSt.lip_hist.length =
        min (a.marSt.lip_hist.length + 1) 10 :=
      marStep_hist_length a.marSt f.mar h
    have hs10 : (faceStep a f).marSt.lip_hist.length ≤ 10 := by omega
    simp only [List.foldl_cons, List.length_cons, ih _ hs10, hs]
    omega

lemma foldl_faceStep_calib (faces : List Face) :
    ∀ a : FaceAcc, a.marSt.calib_count ≤ 30 →
      (faces.foldl faceStep a).marSt.calib_count =
        min (a.marSt.calib_count + faces.length) 30 := by
  induction faces with
  | nil => intro a h; simp; omega
  | cons f fs ih =>
    intro a h
    have hs : (faceStep a f).marSt.calib_count =
        min (a.marSt.calib_count + 1) 30 :=
      marStep_calib_count a.marSt f.mar h
    have hs30 : (faceStep a f).marSt.calib_count ≤ 30 := by omega
    simp only [List.foldl_cons, List.length_cons, ih _ hs30, hs]
    omega

/-! ### Concrete scenarios -/

def lowFace : Face := ⟨1/10, 1/10⟩

/-- A tick with two low-EAR faces detected in the same frame. -/
def twoFaceTick : TickInput :=
  ⟨100, [], none, false, "", [lowFace, lowFace], KeyEvent.noKey⟩

/-- A tick with no face, a given time and a given tilt angle. -/
def quietTilt (t : ℕ) (a : ℚ) : TickInput :=
  ⟨t, [], some a, false, "", [], KeyEvent.noKey⟩

/-- The tilt-angle test sequence [10, 50, 10, 60] of the spec. -/
def tiltSeq : List TickInput :=
  [quietTilt 100 10, quietTilt 101 50, quietTilt 102 10, quietTilt 103 60]

/-! ### Claim theorems on the main loop -/

set_option maxRecDepth 8000 in
/-- C10: face-derived processing runs once per detected face, not once per
frame — in a frame with N detected faces the eye counter advances N times
(one per low-EAR face), the MAR smoothing window advances N times (capped
at 10) and the calibration sample count advances N times (capped at 30);
consequently with two low-EAR faces per frame the drowsiness trigger fires
on the 10th frame, not the 20th, so the stated 20-frame / 30-sample
durations presuppose exactly one face per frame. -/
theorem per_face_processing :
    (∀ (s : SysState) (f : Face) (fs : List Face),
      (∀ g ∈ f :: fs, g.ear < 1/4) →
      (facePhase s (f :: fs)).1.counter = s.counter + (f :: fs).length) ∧
    (∀ (s : SysState) (f : Face) (fs : List Face),
      s.marSt.lip_hist.length ≤ 10 →
      (facePhase s (f :: fs)).1.marSt.lip_hist.length =
        min (s.marSt.lip_hist.length + (f :: fs).length) 10) ∧
    (∀ (s : SysState) (f : Face) (fs : List Face),
      s.marSt.calib_count ≤ 30 →
      (facePhase s (f :: fs)).1.marSt.calib_count =
        min (s.marSt.calib_count + (f :: fs).length) 30) ∧
    tickTrigger (run initState (List.replicate 8 twoFaceTick)) twoFaceTick = false ∧
    tickTrigger (run initState (List.replicate 9 twoFaceTick)) twoFaceTick = true ∧
    (run initState (List.replicate 10 twoFaceTick)).counter = 20 := by
  refine ⟨?_, ?_, ?_, ?_, ?_, ?_⟩
  · intro s f fs h
    exact foldl_faceStep_counter (f :: fs) ⟨s.counter, s.marSt, false⟩ h
  · intro s f fs h
    exact foldl_faceStep_hist (f :: fs) ⟨s.counter, s.marSt, false⟩ h
  · intro s f fs h
    exact foldl_faceStep_calib (f :: fs) ⟨s.counter, s.marSt, false⟩ h
  · with_unfolding_all rfl
  · with_unfolding_all rfl
  · with_unfolding_all rfl

/-- Witness for C10 at concrete inputs: a single low-EAR face advances the
counter by one, the window length by one, and the calibration count by one,
from the initial state. -/
theorem per_face_processing_witness :
    (facePhase initState [lowFace]).1.counter = initState.counter + [lowFace].length ∧
    (facePhase initState [lowFace]).1.marSt.lip_hist.length =
      min (initState.marSt.lip_hist.length + [lowFace].length) 10 ∧
    (facePhase initState [lowFace]).1.marSt.calib_count =
      min (initState.marSt.calib_count + [lowFace].length) 30 :=
  ⟨per_face_processing.1 initState lowFace []
      (by intro g hg; simp only [List.mem_singleton] at hg; subst hg;
          norm_num [lowFace]),
    per_face_processing.2.1 initState lowFace [] (by simp [initState]),
    per_face_processing.2.2.1 initState lowFace [] (by simp [initState])⟩

/-- C3: the accident latch is one-shot — on the tilt sequence
[10, 50, 10, 60] exactly one accident notification is sent, the latch is
clear after the 10 and set (with the buzzer active) after the 50; while
latched, any further tick (any tilt value) sends no accident notification;
and the latch can only become clear through the explicit reset key. -/
theorem accident_latch_one_shot :
    countIncident Incident.accident (runEmails initState tiltSeq) = 1 ∧
    (run initState (tiltSeq.take 1)).accident_detected = false ∧
    (run initState (tiltSeq.take 2)).accident_detected = true ∧
    (run initState (tiltSeq.take 2)).buzzer_active = true ∧
    (run initState tiltSeq).accident_detected = true ∧
    (∀ (s : SysState) (i : TickInput), s.accident_detected = true →
      countIncident Incident.accident (tick s i).2 = 0) ∧
    (∀ (s : SysState) (i : TickInput), (tick s i).1.accident_detected = false →
      s.accident_detected = false ∨ i.key = KeyEvent.keyR) := by
  refine ⟨?_, ?_, ?_, ?_, ?_, ?_, ?_⟩
  · with_unfolding_all rfl
  · with_unfolding_all rfl
  · with_unfolding_all rfl
  · with_unfolding_all rfl
  · with_unfolding_all rfl
  · intro s i hacc
    rw [tick_snd]
    simp only [countIncident_append]
    rw [(sensorPhase_acc_mono s i hacc).2,
      (alertPhase_noemail_acc (afterFace s i) (tickTrigger s i) i.now).1,
      (keyPhase_emails (afterAlert s i) i.key).2]
    simp [countIncident]
  · intro s i h
    by_cases hk : i.key = KeyEvent.keyR
    · exact Or.inr hk
    · left
      rw [tick_fst, keyPhase_accident _ _ hk] at h
      have h5 : (afterAlert s i).accident_detected =
          (sensorPhase s i).1.accident_detected := by
        simp only [afterAlert, afterFace]
        rw [alertPhase_accident, facePhase_accident]
      rw [h5] at h
      exact sensorPhase_accident_false s i h

/-- Witness for C3's universally quantified parts at a concrete latched
state (after the first two ticks of the tilt sequence) and a concrete
further high-tilt tick. -/
theorem accident_latch_one_shot_witness :
    countIncident Incident.accident
      (tick (run initState (tiltSeq.take 2)) (quietTilt 104 60)).2 = 0 ∧
    ((tick (run initState (tiltSeq.take 2)) (quietTilt 104 60)).1.accident_detected
        = false →
      (run initState (tiltSeq.take 2)).accident_detected = false ∨
      (quietTilt 104 60).key = KeyEvent.keyR) :=
  ⟨accident_latch_one_shot.2.2.2.2.2.1 (run initState (tiltSeq.take 2))
      (quietTilt 104 60) (by with_unfolding_all rfl),
    accident_latch_one_shot.2.2.2.2.2.2 (run initState (tiltSeq.take 2))
      (quietTilt 104 60)⟩

/-- One tick preserves an established escalated-and-notified drowsiness
episode when the trigger holds: the alert stays active, the per-episode
email flag stays set, and no drowsiness email is dispatched. -/
lemma tick_keep_drowsy (s : SysState) (i : TickInput)
    (ha : s.alert_active = true) (he : s.drowsiness_email_sent = true)
    (ht : tickTrigger s i = true) :
    (tick s i).1.alert_active = true ∧
    (tick s i).1.drowsiness_email_sent = true ∧
    countIncident Incident.drowsiness (tick s i).2 = 0 := by
  obtain ⟨f, fs, hfaces⟩ : ∃ f fs, i.faces = f :: fs := by
    cases hf : i.faces with
    | nil => exact absurd hf (tickTrigger_faces_ne s i ht)
    | cons f fs => exact ⟨f, fs, rfl⟩
  have h1a : (afterFace s i).alert_active = true := by
    simp only [afterFace, hfaces]
    rw [(facePhase_cons_unchanged _ f fs).1, (sensorPhase_unchanged s i).1]
    exact ha
  have h1e : (afterFace s i).drowsiness_email_sent = true := by
    simp only [afterFace, hfaces]
    rw [(facePhase_cons_unchanged _ f fs).2.2.2.2.2.2.2,
      (sensorPhase_unchanged s i).2.2.1]
    exact he
  have h2 := alertPhase_trigger_keep (afterFace s i) i.now h1a h1e
  have h3a : (afterAlert s i).alert_active = true := by
    simp only [afterAlert, ht]; exact h2.1
  have h3e : (afterAlert s i).drowsiness_email_sent = true := by
    simp only [afterAlert, ht]; exact h2.2.1
  refine ⟨?_, ?_, ?_⟩
  · rw [tick_fst, (keyPhase_unchanged _ _).1]; exact h3a
  · rw [tick_fst, (keyPhase_unchanged _ _).2.2.1]; exact h3e
  · rw [tick_snd]
    simp only [countIncident_append]
    have hmid : (alertPhase (afterFace s i) (tickTrigger s i) i.now).2 = [] := by
      rw [ht]; exact h2.2.2
    rw [(sensorPhase_emails s i).1, hmid, (keyPhase_emails (afterAlert s i) i.key).1]
    simp [countIncident]

/-- C4: escalation idempotence — from any state in which the
drowsiness/yawn episode is active and its notification has been sent,
continuing to satisfy the trigger condition for arbitrarily many more
ticks dispatches no further drowsiness notification (a new one becomes
possible only after the episode ends, i.e. after a tick whose trigger is
false). -/
theorem drowsiness_email_idempotent :
    ∀ (inps : List TickInput) (s : SysState),
      s.alert_active = true → s.drowsiness_email_sent = true →
      allTrigger s inps = true →
      countIncident Incident.drowsiness (runEmails s inps) = 0 := by
  intro inps
  induction inps with
  | nil => intro s _ _ _; rfl
  | cons i is ih =>
    intro s ha he hall
    simp only [allTrigger, Bool.and_eq_true] at hall
    obtain ⟨ka, ke, kc⟩ := tick_keep_drowsy s i ha he hall.1
    simp only [runEmails, countIncident_append, kc, ih _ ka ke hall.2]

/-- A state in the escalated-and-notified stage of a drowsiness episode. -/
def escalatedState : SysState :=
  { initState with
      alert_active := true, drowsiness_email_sent := true,
      buzzer_active := true, beep_start_time := some 100, counter := 20,
      marSt := ⟨[], some 1, 30⟩ }

/-- A tick with one low-EAR face that keeps the trigger condition true. -/
def triggerTick : TickInput :=
  ⟨200, [], none, false, "", [lowFace], KeyEvent.noKey⟩

/-- Witness for C4 at concrete inputs: three further all-trigger ticks from
an escalated, already-notified state dispatch no drowsiness email. -/
theorem drowsiness_email_idempotent_witness :
    countIncident Incident.drowsiness
      (runEmails escalatedState [triggerTick, triggerTick, triggerTick]) = 0 :=
  drowsiness_email_idempotent [triggerTick, triggerTick, triggerTick]
    escalatedState rfl rfl (by with_unfolding_all rfl)

/-! ### Shared-buzzer composite rule (C1) and de-escalation (C5) -/

/-- One tick preserves the invariant "accident latched implies buzzer
active". -/
lemma accBuzz_tick (s : SysState) (i : TickInput)
    (h : s.accident_detected = true → s.buzzer_active = true) :
    (tick s i).1.accident_detected = true → (tick s i).1.buzzer_active = true := by
  rw [tick_fst]
  apply keyPhase_accbuzz
  simp only [afterAlert, afterFace]
  exact alertPhase_accbuzz _ _ _
    (facePhase_accbuzz _ _ (sensorPhase_accbuzz _ _ h))

/-- The invariant "accident latched implies buzzer active" holds along any
run. -/
lemma accBuzz_run (inps : List TickInput) :
    ∀ s : SysState, (s.accident_detected = true → s.buzzer_active = true) →
      ((run s inps).accident_detected = true → (run s inps).buzzer_active = true) := by
  induction inps with
  | nil => intro s h; exact h
  | cons i is ih =>
    intro s h
    simp only [run]
    exact ih _ (accBuzz_tick s i h)

/-- Tick one of the C1 counterexample: alcohol detected (sobriety test
starts), no face, and the driver fails the capture (timeout) on the `s`
key — the failed-test flag latches and the buzzer is activated. -/
def soberFailInput : TickInput :=
  ⟨100, [], none, true, samplePrompt, [], KeyEvent.keyS CaptureResult.timedOut⟩

/-- Tick two of the C1 counterexample: an ordinary tick with no face, no
tilt and no alcohol. -/
def quietInput : TickInput := ⟨101, [], none, false, "", [], KeyEvent.noKey⟩

/-- State after the failed sobriety test. -/
def soberFailedState : SysState := (tick initState soberFailInput).1

/-- C1 counterexample: after a failed sobriety test (failed flag latched,
buzzer on, no accident), the very next tick — whose drowsiness/yawn
trigger is false — deactivates the buzzer in its alert logic even though
the failed sobriety test is still pending reset. This falsifies the claim
that after the alert logic the buzzer is active whenever a failed sobriety
test is pending reset, and in particular that such a tick does not
deactivate it. -/
theorem buzzer_composite_cex :
    soberFailedState.alcohol_test_failed = true ∧
    soberFailedState.buzzer_active = true ∧
    soberFailedState.accident_detected = false ∧
    tickTrigger soberFailedState quietInput = false ∧
    (afterAlert soberFailedState quietInput).alcohol_test_failed = true ∧
    (afterAlert soberFailedState quietInput).accident_detected = false ∧
    (afterAlert soberFailedState quietInput).buzzer_active = false := by
  refine ⟨?_, ?_, ?_, ?_, ?_, ?_, ?_⟩ <;> with_unfolding_all rfl

/-- C1 amended: after the alert logic of any tick, (i) whenever the
accident latch is set the buzzer is active — neither a trigger-false tick
nor a no-face tick deactivates it while an accident is latched (this part
of the composite rule holds); (ii) on any tick whose drowsiness/yawn
trigger is false and whose accident latch is clear, the buzzer is inactive
— a failed sobriety test pending reset does NOT keep the shared buzzer on
(it is re-silenced by the next trigger-false tick), contrary to the
original composite rule. -/
theorem buzzer_composite_amended :
    (∀ (inps : List TickInput) (i : TickInput),
      (afterAlert (run initState inps) i).accident_detected = true →
      (afterAlert (run initState inps) i).buzzer_active = true) ∧
    (∀ (s : SysState) (i : TickInput), tickTrigger s i = false →
      (afterAlert s i).accident_detected = false →
      (afterAlert s i).buzzer_active = false) := by
  constructor
  · intro inps i
    have hrun := accBuzz_run inps initState (by intro h; simp [initState] at h)
    simp only [afterAlert, afterFace]
    exact alertPhase_accbuzz _ _ _
      (facePhase_accbuzz _ _ (sensorPhase_accbuzz _ _ hrun))
  · intro s i htr hacc
    have hface : (afterFace s i).accident_detected = false := by
      have heq : (afterAlert s i).accident_detected =
          (afterFace s i).accident_detected := by
        simp only [afterAlert]
        exact alertPhase_accident _ _ _
      rw [heq] at hacc
      exact hacc
    simp only [afterAlert, htr]
    exact (alertPhase_false_noacc (afterFace s i) i.now hface).2.2

/-- A tick with a tilt of 50 degrees that latches the accident. -/
def tiltHighInput : TickInput := ⟨100, [], some 50, false, "", [], KeyEvent.noKey⟩

/-- Witness for the amended C1 at concrete inputs: on a tick that latches
an accident the buzzer is active after the alert logic, and on a quiet
trigger-false tick from the initial state it is inactive. -/
theorem buzzer_composite_amended_witness :
    (afterAlert (run initState []) tiltHighInput).buzzer_active = true ∧
    (afterAlert initState quietInput).buzzer_active = false :=
  ⟨buzzer_composite_amended.1 [] tiltHighInput (by with_unfolding_all rfl),
    buzzer_composite_amended.2 initState quietInput (by with_unfolding_all rfl)
      (by with_unfolding_all rfl)⟩

/-- Tick one of the C5 counterexample: the vehicle tilts (accident
latches) and twenty low-EAR faces are processed in the same frame, so the
drowsiness trigger fires and an episode starts on this very tick. -/
def c5AccidentDrowsyInput : TickInput :=
  ⟨100, [], some 50, false, "", List.replicate 20 lowFace, KeyEvent.noKey⟩

/-- The state after the accident-plus-drowsiness tick: accident latched,
alert episode active with `beep_start_time = some 100`. -/
def c5EpisodeState : SysState := (tick initState c5AccidentDrowsyInput).1

/-- C5 counterexample: with the accident latch set, a tick whose
drowsiness/yawn trigger is false does NOT return the concern to Inactive —
the alert state stays set and the episode start timestamp is retained, so
the exception for an active accident covers the whole de-escalation, not
only the shared buzzer output as claimed. -/
theorem deescalation_cex :
    c5EpisodeState.alert_active = true ∧
    c5EpisodeState.beep_start_time = some 100 ∧
    c5EpisodeState.accident_detected = true ∧
    tickTrigger c5EpisodeState quietInput = false ∧
    (run initState [c5AccidentDrowsyInput, quietInput]).alert_active = true ∧
    (run initState [c5AccidentDrowsyInput, quietInput]).beep_start_time =
      some 100 := by
  refine ⟨?_, ?_, ?_, ?_, ?_, ?_⟩ <;> with_unfolding_all rfl

/-- C5 amended: (i) on every tick whose drowsiness/yawn trigger is false
and whose accident latch is clear when the alert logic runs, the concern
returns to Inactive at once — tone/alert state cleared, `startedAt`
(`beep_start_time`) cleared, buzzer deactivated; (ii) if instead the
accident latch is set, the alert logic leaves the entire state untouched —
tone, alert state, `startedAt` and buzzer are all retained, i.e. the
accident exception suppresses the whole de-escalation, not only the shared
buzzer output; (iii) re-triggering from a cleared alert state starts a
fresh episode: alert active, `startedAt = now`, and the per-episode
notification flag reset (a new notification is eligible). -/
theorem deescalation_amended :
    (∀ (s : SysState) (i : TickInput), tickTrigger s i = false →
      (afterFace s i).accident_detected = false →
      (afterAlert s i).alert_active = false ∧
      (afterAlert s i).beep_start_time = none ∧
      (afterAlert s i).buzzer_active = false) ∧
    (∀ (s : SysState) (i : TickInput), tickTrigger s i = false →
      (afterFace s i).accident_detected = true →
      afterAlert s i = afterFace s i) ∧
    (∀ (s : SysState) (i : TickInput), tickTrigger s i = true →
      (afterFace s i).alert_active = false →
      (afterAlert s i).alert_active = true ∧
      (afterAlert s i).beep_start_time = some i.now ∧
      (afterAlert s i).drowsiness_email_sent = false) := by
  refine ⟨?_, ?_, ?_⟩
  · intro s i htr hacc
    simp only [afterAlert, htr]
    exact alertPhase_false_noacc _ _ hacc
  · intro s i htr hacc
    simp only [afterAlert, htr]
    exact alertPhase_false_acc _ _ hacc
  · intro s i htr halert
    simp only [afterAlert, htr]
    simp [alertPhase, halert]

/-- A trigger-true tick from a fresh state: twenty low-EAR faces in one
frame with no tilt and no alcohol. -/
def drowsyBurstInput : TickInput :=
  ⟨100, [], none, false, "", List.replicate 20 lowFace, KeyEvent.noKey⟩

/-- Witness for the amended C5 at concrete inputs: a quiet trigger-false
tick from the initial state (accident clear) clears alert state, episode
timestamp and buzzer; from the latched accident-plus-episode state the
alert logic of a quiet tick changes nothing; and a trigger-true tick from
the initial state starts a fresh episode. -/
theorem deescalation_amended_witness :
    ((afterAlert initState quietInput).alert_active = false ∧
      (afterAlert initState quietInput).beep_start_time = none ∧
      (afterAlert initState quietInput).buzzer_active = false) ∧
    afterAlert c5EpisodeState quietInput = afterFace c5EpisodeState quietInput ∧
    ((afterAlert initState drowsyBurstInput).alert_active = true ∧
      (afterAlert initState drowsyBurstInput).beep_start_time = some 100 ∧
      (afterAlert initState drowsyBurstInput).drowsiness_email_sent = false) :=
  ⟨deescalation_amended.1 initState quietInput (by with_unfolding_all rfl)
      (by with_unfolding_all rfl),
    deescalation_amended.2.1 c5EpisodeState quietInput (by with_unfolding_all rfl)
      (by with_unfolding_all rfl),
    deescalation_amended.2.2 initState drowsyBurstInput (by with_unfolding_all rfl)
      (by with_unfolding_all rfl)⟩

end AdvancedSafety
